import Mathlib

/-!
Shallow embedding of `src/frontend/src/pages/RawEdit.tsx`.

The component reads a SWR fetch state `{data, error}` for the endpoint
`/api/files` (`data : string[] | undefined`, `error : unknown | undefined`)
and returns one of three views:
  - `<div>failed to load</div>`          when `error` is present,
  - `loading`                            when `data` is absent,
  - a `Container`/`Tabs` view otherwise: a vertical `Tabs` element holding a
    `Tabs.List` of one `Tabs.Tab` per entry (value and label both the entry)
    and one `Tabs.Panel` per entry (value the entry, `pt="xs"`, child a
    `SingleFileEdit` with `name` and `path` both the entry).

`undefined` is modelled by `Option`-`none`; the JSX tree is modelled by the
`Output` inductive below, keeping exactly the data the source puts into it.
-/

/-- Props passed to the external `SingleFileEdit` widget. -/
structure SingleFileEditProps where
  name : String
  path : String
deriving DecidableEq, Repr

/-- A `Tabs.Tab` element: its `value` attribute and its label (its child text). -/
structure TabNode where
  value : String
  label : String
deriving DecidableEq, Repr

/-- A `Tabs.Panel` element: its `value` attribute, its `pt` attribute and its
`SingleFileEdit` child. -/
structure PanelNode where
  value : String
  pt : String
  child : SingleFileEditProps
deriving DecidableEq, Repr

/-- The three view shapes `RawEdit` can return: the static error `div`, the
static loading fragment, or the `Tabs` view (its `orien`\<`tation` attribute,
its `Tabs.List` of tabs, and its list of panels). -/
inductive Output where
  | failedToLoad : Output
  | loading : Output
  | tabView (orient : String) (tabList : List TabNode) (panels : List PanelNode) : Output
deriving DecidableEq, Repr

/-- The tabs of the rendered view (`[]` for the error and loading views). -/
def Output.tabs : Output → List TabNode
  | .tabView _ ts _ => ts
  | _ => []

/-- The panels of the rendered view (`[]` for the error and loading views). -/
def Output.panels : Output → List PanelNode
  | .tabView _ _ ps => ps
  | _ => []

/-- `<Tabs.Tab value={entry}>{entry}</Tabs.Tab>` for one entry. -/
def mkTab (entry : String) : TabNode :=
  { value := entry, label := entry }

/-- `<Tabs.Panel value={entry} pt="xs"><SingleFileEdit name={entry} path={entry}/></Tabs.Panel>`
for one entry. -/
def mkPanel (entry : String) : PanelNode :=
  { value := entry, pt := "xs", child := { name := entry, path := entry } }

/-- The body of `RawEdit`: `if (error) return <div>failed to load</div>;`
then `if (!data) return <>loading</>;` then the `Container`/`Tabs` view built
by the two `data.map` calls. The error type is left abstract. -/
def RawEdit {ε : Type} (data : Option (List String)) (error : Option ε) : Output :=
  if error.isSome then Output.failedToLoad
  else
    match data with
    | none => Output.loading
    | some d => Output.tabView "vertical" (d.map mkTab) (d.map mkPanel)

/-- The SWR hook state the component reads: the fetched list, if any, and the
fetch error, if any. -/
structure SWRState (ε : Type) where
  data : Option (List String)
  error : Option ε

/-- One render of the component over its SWR state.  The source computes its
view with two `data.map` calls — `Array.prototype.map` allocates a fresh
array — and contains no assignment to `data`, so the state after the render
is the state the render read. -/
def RawEditRender {ε : Type} (s : SWRState ε) : Output × SWRState ε :=
  (RawEdit s.data s.error, s)

/-- **C1.** A successful fetch of `names` renders the tab view with exactly
`names.length` tabs and `names.length` panels, the `i`-th tab valued and
labeled with the `i`-th name and the `i`-th panel valued with the `i`-th
name, in the list's order. -/
theorem rawEdit_success_counts_and_order (names : List String) (i : Nat) :
    ∃ ts ps, RawEdit (some names) (none : Option String) = Output.tabView "vertical" ts ps ∧
      ts.length = names.length ∧ ps.length = names.length ∧
      ts[i]?.map TabNode.value = names[i]? ∧
      ts[i]?.map TabNode.label = names[i]? ∧
      ps[i]?.map PanelNode.value = names[i]? := by
  refine ⟨names.map mkTab, names.map mkPanel, rfl, by simp, by simp, ?_, ?_, ?_⟩ <;>
    simp [List.getElem?_map, mkTab, mkPanel, Option.map_map, Function.comp_def]

/-- **C2.** When the fetch has failed (an error is present), `RawEdit`
returns the static error `div`, whatever `data` holds, and that view has no
tabs and no panels. -/
theorem rawEdit_error_static {ε : Type} (e : ε) (data : Option (List String)) :
    RawEdit data (some e) = Output.failedToLoad ∧
      (RawEdit data (some e)).tabs = [] ∧ (RawEdit data (some e)).panels = [] := by
  refine ⟨rfl, rfl, rfl⟩

/-- **C3.** When the fetch is still pending (no data and no error), `RawEdit`
returns the static loading fragment, which has no tabs and no panels. -/
theorem rawEdit_pending_loading (ε : Type) :
    RawEdit none (none : Option ε) = Output.loading ∧
      (RawEdit none (none : Option ε)).tabs = [] ∧
      (RawEdit none (none : Option ε)).panels = [] := by
  refine ⟨rfl, rfl, rfl⟩

/-- **C4.** On every input state, the output is exactly one of the three
shapes: the error `div`, the loading fragment, or the tab view built from
the fetched list. -/
theorem rawEdit_three_shapes {ε : Type} (data : Option (List String)) (error : Option ε) :
    RawEdit data error = Output.failedToLoad ∨
    RawEdit data error = Output.loading ∨
    ∃ d, data = some d ∧ error = none ∧
      RawEdit data error = Output.tabView "vertical" (d.map mkTab) (d.map mkPanel) := by
  cases error with
  | some e => exact Or.inl rfl
  | none =>
    cases data with
    | none => exact Or.inr (Or.inl rfl)
    | some d => exact Or.inr (Or.inr ⟨d, rfl, rfl, rfl⟩)

/-- **C5.** For every entry of a successfully fetched list, the panel at that
entry's position delegates to `SingleFileEdit`, passing the entry's string as
its `name` and the same string as its `path`. -/
theorem rawEdit_panel_delegates (names : List String) (i : Nat) (entry : String)
    (h : names[i]? = some entry) :
    ((RawEdit (some names) (none : Option String)).panels)[i]? =
      some { value := entry, pt := "xs",
             child := { name := entry, path := entry } } := by
  simp [RawEdit, Output.panels, List.getElem?_map, h, mkPanel]

/-- Witness for `rawEdit_panel_delegates` at `names = ["a"]`, `i = 0`. -/
theorem rawEdit_panel_delegates_witness :
    ((RawEdit (some ["a"]) (none : Option String)).panels)[0]? =
      some { value := "a", pt := "xs",
             child := { name := "a", path := "a" } } :=
  rawEdit_panel_delegates ["a"] 0 "a" rfl

/-- **C6.** Rendering leaves the fetched list unchanged: when the state holds
the list `d`, the state after `RawEditRender` still holds `d`, element for
element. -/
theorem rawEditRender_preserves_data {ε : Type} (s : SWRState ε) (d : List String)
    (h : s.data = some d) :
    (RawEditRender s).2.data = some d ∧
      ∀ i : Nat, (((RawEditRender s).2.data).getD [])[i]? = d[i]? := by
  refine ⟨h, fun i => by simp [RawEditRender, h]⟩

/-- Witness for `rawEditRender_preserves_data` at a one-entry state. -/
theorem rawEditRender_preserves_data_witness :
    (RawEditRender ⟨some ["a", "b"], (none : Option String)⟩).2.data = some ["a", "b"] ∧
      ∀ i : Nat,
        ((RawEditRender ⟨some ["a", "b"], (none : Option String)⟩).2.data.getD [])[i]? =
          ["a", "b"][i]? :=
  rawEditRender_preserves_data ⟨some ["a", "b"], none⟩ ["a", "b"] rfl

/-- **C7.** The sequence of tab values and the sequence of panel values of a
successful render both equal the fetched list itself, so tabs and panels
correspond one to one by value and the backing store's order is preserved. -/
theorem rawEdit_tab_panel_values (names : List String) :
    ((RawEdit (some names) (none : Option String)).tabs).map TabNode.value = names ∧
    ((RawEdit (some names) (none : Option String)).panels).map PanelNode.value = names := by
  constructor <;> simp [RawEdit, Output.tabs, Output.panels, List.map_map,
    Function.comp_def, mkTab, mkPanel]

/-- **C8.** The error view does not depend on the error's content: any two
error values, over any error type and any `data`, render the identical static
message. -/
theorem rawEdit_error_noninterference {ε₁ ε₂ : Type} (e₁ : ε₁) (e₂ : ε₂)
    (data₁ data₂ : Option (List String)) :
    RawEdit data₁ (some e₁) = RawEdit data₂ (some e₂) := by
  rfl

/-- **C9.** A successful fetch of the empty list renders the tab view with
zero tabs and zero panels, not the loading fragment. -/
theorem rawEdit_empty_list_loaded (ε : Type) :
    RawEdit (some []) (none : Option ε) = Output.tabView "vertical" [] [] ∧
      RawEdit (some []) (none : Option ε) ≠ Output.loading := by
  exact ⟨rfl, by simp [RawEdit]⟩

/-- **C10.** When both an error and previously fetched data are present, the
error branch wins: `RawEdit` renders the error `div`, not the tab view. -/
theorem rawEdit_error_over_data {ε : Type} (e : ε) (d : List String) :
    RawEdit (some d) (some e) = Output.failedToLoad ∧
      ∀ o ts ps, RawEdit (some d) (some e) ≠ Output.tabView o ts ps := by
  exact ⟨rfl, fun o ts ps h => Output.noConfusion h⟩
